import Mathlib

/-
Shallow embedding of src/src/Scraper.py (Seeding-QDArchive).

The remote HTTP service is modelled as explicit input data: the search
endpoint as a function from the request offset to a page, the per-item
metadata fetch and download responses as an explicit per-item world.
Python exceptions are modelled with Except: a value of the form
Except.error means the corresponding Python function raised, and the
exception propagates exactly where the Python code propagates it.
The local filesystem is an association list from paths to file data.
-/

namespace Scraper

/-- JSON values as returned by the remote API (Python dict, list, str, int, bool, None). -/
inductive JValue where
  | null : JValue
  | bool (b : Bool) : JValue
  | num (n : Int) : JValue
  | str (s : String) : JValue
  | arr (xs : List JValue) : JValue
  | obj (fields : List (String × JValue)) : JValue

/-- Python exceptions that the scraper can raise: requests.HTTPError from
raise_for_status, network or timeout errors (requests.ConnectionError or
requests.Timeout, which are not HTTPError), and AttributeError or TypeError
from calling dict methods on non-dict values. -/
inductive PyErr where
  | httpError : PyErr
  | netError : PyErr
  | attributeError : PyErr
  | typeError : PyErr
deriving DecidableEq

/-- One author entry as built by extract_authors_affiliations: the values read
for the name and affiliation keys (JValue.null models Python None). -/
structure Author where
  name : JValue
  affiliation : JValue

/-- First-match association lookup, the behaviour of a Python dict read. -/
def jLookup : List (String × JValue) → String → Option JValue
  | [], _ => none
  | (k, v) :: rest, key => if k = key then some v else jLookup rest key

/-- Python x.get(key, default): returns the default when the key is absent,
raises AttributeError when x is not a dict. -/
def pyGetD : JValue → String → JValue → Except PyErr JValue
  | JValue.obj fields, key, dflt => Except.ok ((jLookup fields key).getD dflt)
  | _, _, _ => Except.error PyErr.attributeError

/-- Python x.get(key): returns None when the key is absent, raises
AttributeError when x is not a dict. -/
def pyGet : JValue → String → Except PyErr JValue
  | JValue.obj fields, key => Except.ok ((jLookup fields key).getD JValue.null)
  | _, _ => Except.error PyErr.attributeError

/-- The comparison field.get("typeName") == "author" from the source. -/
def isAuthorTag : JValue → Bool
  | JValue.str s => s = "author"
  | _ => false

/-- Body of the inner author loop of extract_authors_affiliations: reads the
authorName and authorAffiliation compound sub-values and appends one entry. -/
def procAuthorObj (acc : List Author) (author_obj : JValue) : Except PyErr (List Author) :=
  match pyGetD author_obj "authorName" (JValue.obj []) with
  | Except.error e => Except.error e
  | Except.ok name_field =>
    match pyGetD author_obj "authorAffiliation" (JValue.obj []) with
    | Except.error e => Except.error e
    | Except.ok aff_field =>
      match pyGet name_field "value" with
      | Except.error e => Except.error e
      | Except.ok name =>
        match pyGet aff_field "value" with
        | Except.error e => Except.error e
        | Except.ok affiliation => Except.ok (acc ++ [{ name := name, affiliation := affiliation }])

/-- Body of the field loop of extract_authors_affiliations: skips fields whose
typeName is not author, otherwise iterates the value list. -/
def procField (acc : List Author) (field : JValue) : Except PyErr (List Author) :=
  match pyGet field "typeName" with
  | Except.error e => Except.error e
  | Except.ok tn =>
    if isAuthorTag tn then
      match pyGetD field "value" (JValue.arr []) with
      | Except.error e => Except.error e
      | Except.ok v =>
        match v with
        | JValue.arr objs => objs.foldlM procAuthorObj acc
        | _ => Except.error PyErr.typeError
    else Except.ok acc

/-- extract_authors_affiliations from the source: descends
data.latestVersion.metadataBlocks.citation.fields with empty-dict defaults and
collects author entries in source order. -/
def extract_authors_affiliations (dataset_json : JValue) : Except PyErr (List Author) :=
  match pyGetD dataset_json "data" (JValue.obj []) with
  | Except.error e => Except.error e
  | Except.ok data =>
    match pyGetD data "latestVersion" (JValue.obj []) with
    | Except.error e => Except.error e
    | Except.ok latest_version =>
      match pyGetD latest_version "metadataBlocks" (JValue.obj []) with
      | Except.error e => Except.error e
      | Except.ok metadata_blocks =>
        match pyGetD metadata_blocks "citation" (JValue.obj []) with
        | Except.error e => Except.error e
        | Except.ok citation_block =>
          match pyGetD citation_block "fields" (JValue.arr []) with
          | Except.error e => Except.error e
          | Except.ok fieldsJ =>
            match fieldsJ with
            | JValue.arr fields => fields.foldlM procField []
            | _ => Except.error PyErr.typeError

/-- Contents of one local file: raw downloaded bytes or one JSON document. -/
inductive FileData where
  | bin (content : List Nat) : FileData
  | jsonDoc (v : JValue) : FileData

/-- The local filesystem as an association list from paths to file contents. -/
abbrev FS := List (String × FileData)

/-- Write (create or fully overwrite) the file at a path. -/
def fsSet : FS → String → FileData → FS
  | [], p, d => [(p, d)]
  | (q, e) :: rest, p, d => if q = p then (p, d) :: rest else (q, e) :: fsSet rest p d

/-- Read the file at a path. -/
def fsGet : FS → String → Option FileData
  | [], _ => none
  | (q, e) :: rest, p => if q = p then some e else fsGet rest p

/-- Python str.startswith, computed on the underlying character list. -/
def strStartsWith (s pre : String) : Bool :=
  pre.data.isPrefixOf s.data

/-- Python str.endswith, computed on the underlying character list. -/
def strEndsWith (s post : String) : Bool :=
  post.data.isSuffixOf s.data

/-- Python str.lower, computed on the underlying character list. -/
def strToLower (s : String) : String :=
  String.mk (s.data.map Char.toLower)

/-- posixpath.join for two components, as used by os.path.join in the source. -/
def pathJoin (a b : String) : String :=
  if strStartsWith b "/" then b
  else if a = "" then b
  else if strEndsWith a "/" then a ++ b
  else a ++ "/" ++ b

/-- Module constant BASE_URL from the source. -/
def BASE_URL : String := "https://dataverse.harvard.edu"

/-- Module constant FILES_DIR from the source. -/
def FILES_DIR : String := "harvard_qdpx_files"

/-- Module constant META_DIR from the source. -/
def META_DIR : String := "harvard_qdpx_authors"

/-- Python truthiness of an optional string value: None and the empty string
are falsy, every other string is truthy. -/
def strTruthy : Option String → Bool
  | none => false
  | some s => !(s == "")

/-- Rendering of an optional numeric id inside an f-string: None prints as
the text None. -/
def pyReprOptNat : Option Nat → String
  | none => "None"
  | some n => toString n

/-- JSON encoding of an optional number (None encodes as null). -/
def jOfOptNat : Option Nat → JValue
  | none => JValue.null
  | some n => JValue.num n

/-- JSON encoding of an optional string (None encodes as null). -/
def jOfOptStr : Option String → JValue
  | none => JValue.null
  | some s => JValue.str s

/-- JSON encoding of one author entry as written by json.dump in
save_authors_metadata. -/
def authorToJson (a : Author) : JValue :=
  JValue.obj [("name", a.name), ("affiliation", a.affiliation)]

/-- save_authors_metadata from the source: writes (fully overwriting) one JSON
document with dataset_id, dataset_persistent_id, dataset_name and the author
list, at out_dir/{dataset_id}_authors.json. -/
def save_authors_metadata (dataset_id : Option Nat) (dataset_persistent_id : Option String)
    (dataset_name : Option String) (authors : List Author) (out_dir : String) (fs : FS) : FS :=
  fsSet fs (pathJoin out_dir (pyReprOptNat dataset_id ++ "_authors.json"))
    (FileData.jsonDoc (JValue.obj
      [("dataset_id", jOfOptNat dataset_id),
       ("dataset_persistent_id", jOfOptStr dataset_persistent_id),
       ("dataset_name", jOfOptStr dataset_name),
       ("authors", JValue.arr (authors.map authorToJson))]))

/-- Decoding of one persisted author entry, inverse of authorToJson. -/
def jsonToAuthor : JValue → Option Author
  | JValue.obj fields =>
      some { name := (jLookup fields "name").getD JValue.null,
             affiliation := (jLookup fields "affiliation").getD JValue.null }
  | _ => none

/-- Reading the persisted side-record back: json.load of the file at the given
path followed by decoding the authors array. -/
def readAuthorsRecord (fs : FS) (path : String) : Option (List Author) :=
  match fsGet fs path with
  | some (FileData.jsonDoc (JValue.obj fields)) =>
    match jLookup fields "authors" with
    | some (JValue.arr xs) => xs.mapM jsonToAuthor
    | _ => none
  | _ => none

/-- One search result item, with the fields the source reads from the search
API item dict. A missing dict key is modelled as none (respectively false for
the permission flag, whose read has default False). -/
structure SearchItem where
  name : Option String
  file_id : Option String
  url : Option String
  canDownloadFile : Bool
  dataset_name : Option String
  dataset_persistent_id : Option String
  dataset_id : Option Nat
deriving DecidableEq

/-- One response of the search endpoint: the payload status string, the items
list and the server-reported total_count. -/
structure Page where
  status : String
  items : List SearchItem
  total_count : Nat
deriving DecidableEq

/-- The client-side filter applied inside the search loop:
item.get("name", "").lower().endswith(".qdpx"). -/
def isQdpx (item : SearchItem) : Bool :=
  strEndsWith (strToLower (item.name.getD "")) ".qdpx"

/-- search_qdpx_files from the source, as a function of the search endpoint
(from request offset to page) with an explicit fuel bound on the number of
page requests; the Python generator is the limit over fuel. Returns the list
of yielded items in yield order. -/
def search_qdpx_files (server : Nat → Page) (per_page : Nat) : Nat → Nat → List SearchItem
  | 0, _ => []
  | fuel + 1, start =>
    let p := server start
    if p.status ≠ "OK" then []
    else if p.items.isEmpty then []
    else
      let ys := p.items.filter isQdpx
      if p.total_count ≤ start + per_page then ys
      else ys ++ search_qdpx_files server per_page fuel (start + per_page)

/-- The pages whose items the search loop iterates (status OK and non-empty),
in request order, with the same control flow as search_qdpx_files. -/
def search_qdpx_pages (server : Nat → Page) (per_page : Nat) : Nat → Nat → List Page
  | 0, _ => []
  | fuel + 1, start =>
    let p := server start
    if p.status ≠ "OK" then []
    else if p.items.isEmpty then []
    else if p.total_count ≤ start + per_page then [p]
    else p :: search_qdpx_pages server per_page fuel (start + per_page)

/-- One chunk event of a streamed response body: a bytes chunk, or a network
error raised while reading the stream. -/
inductive Chunk where
  | bytes (b : List Nat) : Chunk
  | errC : Chunk
deriving DecidableEq

/-- Result of one download GET: a network or timeout error raised by the call
itself, or a response with a status code and a streamed body. -/
inductive NetResult where
  | netError : NetResult
  | response (status : Nat) (chunks : List Chunk) : NetResult
deriving DecidableEq

/-- The body-writing loop of download_qdpx_file: accumulates chunk bytes in
order and reports the position where a mid-stream error was raised. The second
component is the content written to the open file so far. -/
def streamChunks : List Chunk → List Nat → Option PyErr × List Nat
  | [], acc => (none, acc)
  | Chunk.bytes b :: rest, acc => streamChunks rest (acc ++ b)
  | Chunk.errC :: _, acc => (some PyErr.netError, acc)

/-- Classification of the in-band (non-raising) exits of download_qdpx_file,
one per print branch of the source. -/
inductive DlOutcome where
  | skippedNoPermission : DlOutcome
  | skippedNoLocator : DlOutcome
  | forbidden : DlOutcome
  | saved (path : String) : DlOutcome
deriving DecidableEq

/-- Observable result of one download_qdpx_file call: the returned outcome or
raised exception, the filesystem afterwards, how many network requests were
issued, and which URL the request used. -/
structure DlR where
  res : Except PyErr DlOutcome
  fs : FS
  netCalls : Nat
  urlUsed : Option String

/-- file_name = item.get("name", "unknown.qdpx") from the source. -/
def fileNameOf (item : SearchItem) : String :=
  item.name.getD "unknown.qdpx"

/-- The deterministic destination file name of the source: the f-string
{file_id}_{file_name} when file_id is truthy, else the bare file name. -/
def safeName (item : SearchItem) : String :=
  if strTruthy item.file_id then (item.file_id.getD "") ++ "_" ++ fileNameOf item
  else fileNameOf item

/-- dest_path = os.path.join(output_dir, safe_name) from the source. -/
def destPath (item : SearchItem) (output_dir : String) : String :=
  pathJoin output_dir (safeName item)

/-- URL resolution of the source: the direct url when truthy, else a URL
synthesized from a truthy file_id, else nothing. -/
def resolvedUrl (item : SearchItem) : Option String :=
  if strTruthy item.url then item.url
  else if strTruthy item.file_id then
    some (BASE_URL ++ "/api/access/datafile/" ++ item.file_id.getD "")
  else none

/-- download_qdpx_file from the source, with the download GET result supplied
as data. Mirrors the source exactly: permission check, URL resolution, name
computation, 403 check, raise_for_status (requests raises exactly for the
client and server error range 400 to 599; any other status, including a
nonstandard status of 600 or above, passes), then open the destination for
writing and stream the chunks into it. -/
def download_qdpx_file (item : SearchItem) (output_dir : String) (net : NetResult) (fs : FS) : DlR :=
  if !item.canDownloadFile then
    { res := Except.ok DlOutcome.skippedNoPermission, fs := fs, netCalls := 0, urlUsed := none }
  else
    match resolvedUrl item with
    | none =>
      { res := Except.ok DlOutcome.skippedNoLocator, fs := fs, netCalls := 0, urlUsed := none }
    | some download_url =>
      let dest := destPath item output_dir
      match net with
      | NetResult.netError =>
        { res := Except.error PyErr.netError, fs := fs, netCalls := 1, urlUsed := some download_url }
      | NetResult.response status chunks =>
        if status = 403 then
          { res := Except.ok DlOutcome.forbidden, fs := fs, netCalls := 1,
            urlUsed := some download_url }
        else if 400 ≤ status ∧ status < 600 then
          { res := Except.error PyErr.httpError, fs := fs, netCalls := 1,
            urlUsed := some download_url }
        else
          match streamChunks chunks [] with
          | (some e, partialBytes) =>
            { res := Except.error e, fs := fsSet fs dest (FileData.bin partialBytes),
              netCalls := 1, urlUsed := some download_url }
          | (none, content) =>
            { res := Except.ok (DlOutcome.saved dest), fs := fsSet fs dest (FileData.bin content),
              netCalls := 1, urlUsed := some download_url }

/-- The per-item behaviour of the remote service: the result of the metadata
fetch for this item and the result of the download GET for this item. -/
structure ItemWorld where
  metaResult : Except PyErr JValue
  dlNet : NetResult

/-- fetch_dataset_metadata from the source: performs the GET whose outcome the
world records; raise_for_status turns a bad status into an HTTPError and a
network failure raises a non-HTTPError. -/
def fetch_dataset_metadata (w : ItemWorld) : Except PyErr JValue :=
  w.metaResult

/-- process_qdpx_item from the source: when the item has a truthy persistent
id, fetch metadata, extract authors and save the side-record, catching only
requests.HTTPError; then call download_qdpx_file unconditionally. Any other
exception propagates out of the function at the point it is raised. -/
def process_qdpx_item (item : SearchItem) (w : ItemWorld) (fs : FS) : Except PyErr Unit × FS :=
  let metaStep : Except PyErr FS :=
    if strTruthy item.dataset_persistent_id then
      match fetch_dataset_metadata w with
      | Except.error PyErr.httpError => Except.ok fs
      | Except.error e => Except.error e
      | Except.ok dataset_json =>
        match extract_authors_affiliations dataset_json with
        | Except.error e => Except.error e
        | Except.ok authors =>
          Except.ok (save_authors_metadata item.dataset_id item.dataset_persistent_id
            item.dataset_name authors META_DIR fs)
    else Except.ok fs
  match metaStep with
  | Except.error e => (Except.error e, fs)
  | Except.ok fs1 =>
    let d := download_qdpx_file item FILES_DIR w.dlNet fs1
    match d.res with
    | Except.error e => (Except.error e, d.fs)
    | Except.ok _ => (Except.ok (), d.fs)

/-- The item loop of main: processes each yielded item in order with its world
(indexed by position), incrementing the processed count after each item; an
exception raised by an item aborts the loop and propagates. -/
def mainLoop (ws : Nat → ItemWorld) : List SearchItem → Nat → Nat → FS → Except PyErr Nat × FS
  | [], _, count, fs => (Except.ok count, fs)
  | item :: rest, k, count, fs =>
    match process_qdpx_item item (ws k) fs with
    | (Except.error e, fs1) => (Except.error e, fs1)
    | (Except.ok _, fs1) => mainLoop ws rest (k + 1) (count + 1) fs1

/-- main from the source: iterates process_qdpx_item over the search results
(per_page 50) counting processed items; returns the final count or the
uncaught exception, together with the filesystem. -/
def main (server : Nat → Page) (ws : Nat → ItemWorld) (fuel : Nat) (fs : FS) :
    Except PyErr Nat × FS :=
  mainLoop ws (search_qdpx_files server 50 fuel 0) 0 0 fs

/-- Spec-side definition, written from the spec words for comparison with the
code: a download response is successful when the request did not raise, the
status is a success status, and the whole body streamed without error. -/
def isSuccessResponse : NetResult → Bool
  | NetResult.netError => false
  | NetResult.response status chunks =>
      decide (status < 400) &&
        chunks.all (fun c => match c with | Chunk.bytes _ => true | Chunk.errC => false)

/-- Spec-side definition, written from the spec words for comparison with the
code: the number of items with permission true whose download response was
successful. -/
def specSavedCount (items : List SearchItem) (ws : Nat → ItemWorld) : Nat :=
  (items.enum.filter
    (fun p => p.2.canDownloadFile && isSuccessResponse (ws p.1).dlNet)).length

/-- The predicate: the sub-value under this key is either absent or a dict,
so that the Python read of its value key cannot raise. -/
def NoneOrObj (x : Option JValue) : Prop :=
  x = none ∨ ∃ g, x = some (JValue.obj g)

/-- A well-shaped compound author entry: a dict whose authorName and
authorAffiliation keys, when present, hold dicts. -/
def WfAuthorObj (v : JValue) : Prop :=
  ∃ fields, v = JValue.obj fields
    ∧ NoneOrObj (jLookup fields "authorName")
    ∧ NoneOrObj (jLookup fields "authorAffiliation")

/-- The value key of a compound sub-field, null when the sub-field or its
value key is absent. -/
def subValue (fields : List (String × JValue)) (key : String) : JValue :=
  match jLookup fields key with
  | some (JValue.obj g) => (jLookup g "value").getD JValue.null
  | _ => JValue.null

/-- The author entry the extractor produces for one well-shaped compound
author object. -/
def authorFromJ : JValue → Author
  | JValue.obj fields => { name := subValue fields "authorName",
                           affiliation := subValue fields "authorAffiliation" }
  | _ => { name := JValue.null, affiliation := JValue.null }

/-- A dataset metadata document whose citation block holds exactly one author
field with the given compound value list. -/
def mkAuthorDoc (objs : List JValue) : JValue :=
  JValue.obj [("data", JValue.obj [("latestVersion", JValue.obj [("metadataBlocks",
    JValue.obj [("citation", JValue.obj [("fields", JValue.arr
      [JValue.obj [("typeName", JValue.str "author"), ("value", JValue.arr objs)]])])])])])]

/-- A search item whose lowercased name ends with .qdpx. -/
def itemA : SearchItem :=
  { name := some "a.qdpx", file_id := none, url := none, canDownloadFile := false,
    dataset_name := none, dataset_persistent_id := none, dataset_id := none }

/-- A search item whose name does not end with .qdpx. -/
def itemB : SearchItem :=
  { name := some "b.txt", file_id := none, url := none, canDownloadFile := false,
    dataset_name := none, dataset_persistent_id := none, dataset_id := none }

/-- A search endpoint whose first page holds one qdpx item and one non-qdpx
item with total_count 1, and whose later pages are empty. -/
def exServer : Nat → Page
  | 0 => { status := "OK", items := [itemA, itemB], total_count := 1 }
  | _ + 1 => { status := "OK", items := [], total_count := 0 }

/-- A search endpoint all of whose pages are empty. -/
def constEmptyServer : Nat → Page :=
  fun _ => { status := "OK", items := [], total_count := 0 }

/-- An item with the download permission flag false. -/
def itemNoPerm : SearchItem :=
  { name := some "n.qdpx", file_id := none, url := some "u", canDownloadFile := false,
    dataset_name := none, dataset_persistent_id := none, dataset_id := none }

/-- A downloadable item with a direct URL and no file identifier. -/
def itemC3 : SearchItem :=
  { name := some "c.qdpx", file_id := none, url := some "u", canDownloadFile := true,
    dataset_name := none, dataset_persistent_id := none, dataset_id := none }

/-- A downloadable item whose file_id is present but is the empty string. -/
def itemEmptyId : SearchItem :=
  { name := some "a.qdpx", file_id := some "", url := some "u", canDownloadFile := true,
    dataset_name := none, dataset_persistent_id := none, dataset_id := none }

/-- A downloadable item with the nonempty file identifier 42. -/
def itemId42 : SearchItem :=
  { name := some "a.qdpx", file_id := some "42", url := some "u", canDownloadFile := true,
    dataset_name := none, dataset_persistent_id := none, dataset_id := none }

/-- A downloadable item whose direct URL is present but is the empty string,
with the nonempty file identifier 7. -/
def itemUrlEmpty : SearchItem :=
  { name := some "x.qdpx", file_id := some "7", url := some "", canDownloadFile := true,
    dataset_name := none, dataset_persistent_id := none, dataset_id := none }

/-- A downloadable item with neither a direct URL nor a file identifier. -/
def itemNoLocator : SearchItem :=
  { name := some "z.qdpx", file_id := none, url := none, canDownloadFile := true,
    dataset_name := none, dataset_persistent_id := none, dataset_id := none }

/-- A downloadable item carrying a dataset persistent identifier. -/
def itemP : SearchItem :=
  { name := some "p.qdpx", file_id := none, url := some "u", canDownloadFile := true,
    dataset_name := some "DS", dataset_persistent_id := some "doi:10.7910/DVN/X",
    dataset_id := some 5 }

/-- A world where the metadata fetch raised requests.HTTPError and the
download succeeds with one bytes chunk. -/
def wHttpErr : ItemWorld :=
  { metaResult := Except.error PyErr.httpError,
    dlNet := NetResult.response 200 [Chunk.bytes [5]] }

/-- First of three downloadable items with direct URLs and no persistent id. -/
def itemD1 : SearchItem :=
  { name := some "d1.qdpx", file_id := none, url := some "u1", canDownloadFile := true,
    dataset_name := none, dataset_persistent_id := none, dataset_id := none }

/-- Second of three downloadable items. -/
def itemD2 : SearchItem :=
  { name := some "d2.qdpx", file_id := none, url := some "u2", canDownloadFile := true,
    dataset_name := none, dataset_persistent_id := none, dataset_id := none }

/-- Third of three downloadable items. -/
def itemD3 : SearchItem :=
  { name := some "d3.qdpx", file_id := none, url := some "u3", canDownloadFile := true,
    dataset_name := none, dataset_persistent_id := none, dataset_id := none }

/-- Item itemD1 with the download permission flag false. -/
def itemD1NoPerm : SearchItem :=
  { name := some "d1.qdpx", file_id := none, url := some "u1", canDownloadFile := false,
    dataset_name := none, dataset_persistent_id := none, dataset_id := none }

/-- Worlds where the download GET of the item at position 1 raises a network
error and every other download succeeds. -/
def wsErrAt1 : Nat → ItemWorld :=
  fun k =>
    if k = 1 then { metaResult := Except.ok (JValue.obj []), dlNet := NetResult.netError }
    else { metaResult := Except.ok (JValue.obj []),
           dlNet := NetResult.response 200 [Chunk.bytes [9]] }

/-- Worlds where every download GET raises a network error. -/
def wsAllNetErr : Nat → ItemWorld :=
  fun _ => { metaResult := Except.ok (JValue.obj []), dlNet := NetResult.netError }

/-- Worlds where every metadata fetch and every download succeed, the body
being the two bytes 1 and 2. -/
def wsA : Nat → ItemWorld :=
  fun _ => { metaResult := Except.ok (JValue.obj []),
             dlNet := NetResult.response 200 [Chunk.bytes [1, 2]] }

/-- A search endpoint yielding one page with itemD1 twice. -/
def serverS : Nat → Page
  | 0 => { status := "OK", items := [itemD1, itemD1], total_count := 2 }
  | _ + 1 => { status := "OK", items := [], total_count := 0 }

/-- A search endpoint yielding one page with itemD1NoPerm then itemD1. -/
def serverS0 : Nat → Page
  | 0 => { status := "OK", items := [itemD1NoPerm, itemD1], total_count := 2 }
  | _ + 1 => { status := "OK", items := [], total_count := 0 }

/-- A well-shaped author value list: one entry with a name and an affiliation
dict without a value key, and one entirely empty entry. -/
def authorObjsEx : List JValue :=
  [JValue.obj [("authorName", JValue.obj [("value", JValue.str "A")]),
               ("authorAffiliation", JValue.obj [])],
   JValue.obj []]

/-- Binding a successful Except computation runs the continuation. -/
theorem exceptOkBind {α β : Type} (a : α) (f : α → Except PyErr β) :
    (Except.ok a >>= f) = f a :=
  rfl

/-- Reading a path just written returns the written data. -/
theorem fsGet_fsSet_self (fs : FS) (p : String) (d : FileData) :
    fsGet (fsSet fs p d) p = some d := by
  induction fs with
  | nil => simp [fsSet, fsGet]
  | cons hd t ih =>
    obtain ⟨q, e⟩ := hd
    by_cases hq : q = p
    · simp [fsSet, fsGet, hq]
    · simp [fsSet, fsGet, hq, ih]

/-- Writing the same path twice keeps only the second write. -/
theorem fsSet_fsSet_self (fs : FS) (p : String) (d1 d2 : FileData) :
    fsSet (fsSet fs p d1) p d2 = fsSet fs p d2 := by
  induction fs with
  | nil => simp [fsSet]
  | cons hd t ih =>
    obtain ⟨q, e⟩ := hd
    by_cases hq : q = p
    · simp [fsSet, hq]
    · simp [fsSet, hq, ih]

/-- Decoding an encoded author list returns the original list. -/
theorem mapM_jsonToAuthor_toJson (l : List Author) :
    (l.map authorToJson).mapM jsonToAuthor = some l := by
  induction l with
  | nil => rfl
  | cons a t ih =>
    show (authorToJson a :: t.map authorToJson).mapM jsonToAuthor = some (a :: t)
    rw [List.mapM_cons]
    have h1 : jsonToAuthor (authorToJson a) = some a := rfl
    rw [h1, ih]
    rfl

/-- One-step unfolding of the search loop at positive fuel. -/
theorem search_files_succ (server : Nat → Page) (pp fuel start : Nat) :
    search_qdpx_files server pp (fuel + 1) start
      = (if (server start).status ≠ "OK" then []
         else if (server start).items.isEmpty then []
         else if (server start).total_count ≤ start + pp then
           (server start).items.filter isQdpx
         else (server start).items.filter isQdpx
           ++ search_qdpx_files server pp fuel (start + pp)) :=
  rfl

/-- The yielded items of the search loop are exactly the concatenated items of
the consumed pages, filtered by the client-side qdpx name check. -/
theorem search_files_eq_filter (server : Nat → Page) (pp : Nat) :
    ∀ fuel start, search_qdpx_files server pp fuel start
      = ((search_qdpx_pages server pp fuel start).flatMap Page.items).filter isQdpx := by
  intro fuel
  induction fuel with
  | zero => intro start; rfl
  | succ f ih =>
    intro start
    simp only [search_qdpx_files, search_qdpx_pages]
    by_cases h1 : (server start).status ≠ "OK"
    · simp [h1]
    · by_cases h2 : (server start).items.isEmpty
      · simp [h1, h2]
      · by_cases h3 : (server start).total_count ≤ start + pp
        · simp [h1, h2, h3]
        · simp [h1, h2, h3, ih, List.filter_append]

/-- Once the reported totals are all below the current offset reach, extra
fuel does not change the yielded sequence: the loop has terminated. -/
theorem search_files_fuel_mono (server : Nat → Page) (pp T : Nat)
    (hT : ∀ s, (server s).total_count ≤ T) :
    ∀ f start g, T ≤ start + f * pp →
      search_qdpx_files server pp (f + 1) start
        = search_qdpx_files server pp (f + 1 + g) start := by
  intro f
  induction f with
  | zero =>
    intro start g h0
    have h0s : T ≤ start := by simpa using h0
    have hc : (server start).total_count ≤ start + pp :=
      le_trans (hT start) (le_trans h0s (Nat.le_add_right _ _))
    have key : ∀ m, search_qdpx_files server pp (m + 1) start
        = search_qdpx_files server pp 1 start := by
      intro m
      simp only [search_qdpx_files]
      by_cases hs1 : (server start).status ≠ "OK"
      · simp [hs1]
      · by_cases hs2 : (server start).items.isEmpty
        · simp [hs1, hs2]
        · simp [hs1, hs2, hc]
    have hg : 0 + 1 + g = g + 1 := by omega
    rw [hg, key g]
  | succ f ih =>
    intro start g h0
    have hg : f + 1 + 1 + g = (f + 1 + g) + 1 := by omega
    rw [hg]
    have h0s : T ≤ start + pp + f * pp := by
      have hmul : start + (f + 1) * pp = start + pp + f * pp := by ring
      rw [hmul] at h0
      exact h0
    rw [search_files_succ server pp (f + 1) start, search_files_succ server pp (f + 1 + g) start]
    by_cases hs1 : (server start).status ≠ "OK"
    · simp only [if_pos hs1]
    · by_cases hs2 : (server start).items.isEmpty
      · simp only [if_neg hs1, if_pos hs2]
      · by_cases hs3 : (server start).total_count ≤ start + pp
        · simp only [if_neg hs1, if_neg hs2, if_pos hs3]
        · simp only [if_neg hs1, if_neg hs2, if_neg hs3]
          rw [ih (start + pp) g h0s]

/-- One compound author entry whose sub-fields are absent or dicts is turned
into exactly one appended author entry. -/
theorem procAuthorObj_wf (acc : List Author) (o : JValue) (h : WfAuthorObj o) :
    procAuthorObj acc o = Except.ok (acc ++ [authorFromJ o]) := by
  obtain ⟨fields, rfl, hn, ha⟩ := h
  rcases hn with hn | ⟨g, hn⟩ <;> rcases ha with ha | ⟨g2, ha⟩ <;>
    simp [procAuthorObj, pyGetD, pyGet, authorFromJ, subValue, hn, ha, jLookup]

/-- Folding the author loop over a well-shaped value list appends the decoded
entries in source order. -/
theorem foldlM_procAuthorObj_wf :
    ∀ (objs : List JValue), (∀ o ∈ objs, WfAuthorObj o) → ∀ acc : List Author,
      objs.foldlM procAuthorObj acc = Except.ok (acc ++ objs.map authorFromJ) := by
  intro objs
  induction objs with
  | nil => intro _ acc; simp; rfl
  | cons o t ih =>
    intro h acc
    have ho := h o (List.mem_cons_self o t)
    have ht := fun x hx => h x (List.mem_cons_of_mem o hx)
    rw [show (o :: t).foldlM procAuthorObj acc
        = (procAuthorObj acc o >>= fun s => t.foldlM procAuthorObj s) from rfl]
    rw [procAuthorObj_wf acc o ho, exceptOkBind, ih ht]
    simp

/-- When the item loop returns a count, that count is the starting count plus
the number of items in the list. -/
theorem mainLoop_ok_length (ws : Nat → ItemWorld) :
    ∀ (items : List SearchItem) (k count : Nat) (fs : FS) (n : Nat) (fs2 : FS),
      mainLoop ws items k count fs = (Except.ok n, fs2) → n = count + items.length := by
  intro items
  induction items with
  | nil =>
    intro k count fs n fs2 h
    simp only [mainLoop, Prod.mk.injEq, Except.ok.injEq] at h
    simp [← h.1]
  | cons item rest ih =>
    intro k count fs n fs2 h
    rcases hp : process_qdpx_item item (ws k) fs with ⟨res, fs1⟩
    rw [mainLoop, hp] at h
    cases res with
    | error e => simp at h
    | ok u =>
      have := ih (k + 1) (count + 1) fs1 n fs2 h
      simp only [List.length_cons]
      omega

/-- Every download call either leaves the filesystem unchanged or writes the
single deterministic destination path of the item. -/
theorem download_fs_eq_or_dest (item : SearchItem) (dir : String) (net : NetResult) (fs : FS) :
    (download_qdpx_file item dir net fs).fs = fs
      ∨ ∃ d, (download_qdpx_file item dir net fs).fs = fsSet fs (destPath item dir) d := by
  unfold download_qdpx_file
  by_cases hperm : item.canDownloadFile
  · cases hr : resolvedUrl item with
    | none => simp [hperm, hr]
    | some du =>
      cases net with
      | netError => simp [hperm, hr]
      | response status chunks =>
        by_cases h403 : status = 403
        · simp [hperm, hr, h403]
        · by_cases h400 : 400 ≤ status ∧ status < 600
          · simp [hperm, hr, h403, h400]
          · rcases hst : streamChunks chunks [] with ⟨errOpt, content⟩
            cases errOpt with
            | none =>
              right
              exact ⟨FileData.bin content, by simp [hperm, hr, h403, h400, hst]⟩
            | some e =>
              right
              exact ⟨FileData.bin content, by simp [hperm, hr, h403, h400, hst]⟩
  · simp [hperm]

/-- C1 (amended): a metadata-fetch HTTPError on an item is caught and does not
skip that item download step (processing then behaves exactly as the download
alone would); but an exception raised while processing an item, for example a
network error during its download, propagates out of the item loop, so the
run aborts with that exception and the remaining items are never processed:
download failures are fatal to the run, not converted to a per-item outcome. -/
theorem C1_isolation_amended :
    (∀ (item : SearchItem) (w : ItemWorld) (fs : FS),
       strTruthy item.dataset_persistent_id = true →
       w.metaResult = Except.error PyErr.httpError →
       process_qdpx_item item w fs
         = (Except.map (fun _ => ()) (download_qdpx_file item FILES_DIR w.dlNet fs).res,
            (download_qdpx_file item FILES_DIR w.dlNet fs).fs))
    ∧ (∀ (ws : Nat → ItemWorld) (item : SearchItem) (rest : List SearchItem)
         (k c : Nat) (fs : FS) (e : PyErr),
        (process_qdpx_item item (ws k) fs).1 = Except.error e →
        mainLoop ws (item :: rest) k c fs
          = (Except.error e, (process_qdpx_item item (ws k) fs).2))
    ∧ (∀ (item : SearchItem) (w : ItemWorld) (fs : FS),
        item.canDownloadFile = true →
        strTruthy item.dataset_persistent_id = false →
        (resolvedUrl item).isSome = true →
        w.dlNet = NetResult.netError →
        process_qdpx_item item w fs = (Except.error PyErr.netError, fs)) := by
  refine ⟨?_, ?_, ?_⟩
  · intro item w fs h1 h2
    rcases hd : (download_qdpx_file item FILES_DIR w.dlNet fs).res with e | o <;>
      simp [process_qdpx_item, fetch_dataset_metadata, h1, h2, hd, Except.map]
  · intro ws item rest k c fs e h
    rcases hp : process_qdpx_item item (ws k) fs with ⟨res, fs2⟩
    rw [hp] at h
    simp only at h
    subst h
    rw [mainLoop, hp]
  · intro item w fs h1 h2 h3 h4
    obtain ⟨du, hdu⟩ := Option.isSome_iff_exists.mp h3
    simp [process_qdpx_item, fetch_dataset_metadata, download_qdpx_file, h1, h2, hdu, h4]

/-- C1 witness: the amended claim evaluated at concrete inputs: a caught
metadata HTTPError still downloads, and a download network error aborts. -/
theorem C1_isolation_witness :
    process_qdpx_item itemP wHttpErr []
      = (Except.map (fun _ => ()) (download_qdpx_file itemP FILES_DIR wHttpErr.dlNet []).res,
         (download_qdpx_file itemP FILES_DIR wHttpErr.dlNet []).fs)
    ∧ mainLoop wsAllNetErr [itemD1] 0 0 []
        = (Except.error PyErr.netError, (process_qdpx_item itemD1 (wsAllNetErr 0) []).2)
    ∧ process_qdpx_item itemD1 (wsAllNetErr 0) [] = (Except.error PyErr.netError, []) :=
  ⟨C1_isolation_amended.1 itemP wHttpErr [] rfl rfl,
   C1_isolation_amended.2.1 wsAllNetErr itemD1 [] 0 0 [] PyErr.netError rfl,
   C1_isolation_amended.2.2 itemD1 (wsAllNetErr 0) [] rfl rfl rfl rfl⟩

/-- C1 counterexample: three items whose downloads succeed except for a
network error on the middle one. The run aborts with the exception: the first
item was processed, but the third item file is absent and the loop does not
return a count, contradicting the claim that a download network error is
converted to a per-item Failed outcome and that the items after the failing
item are still processed. -/
theorem C1_isolation_counterexample :
    mainLoop wsErrAt1 [itemD1, itemD2, itemD3] 0 0 []
      = (Except.error PyErr.netError, [("harvard_qdpx_files/d1.qdpx", FileData.bin [9])])
    ∧ fsGet (mainLoop wsErrAt1 [itemD1, itemD2, itemD3] 0 0 []).2 "harvard_qdpx_files/d3.qdpx"
        = none
    ∧ (mainLoop wsErrAt1 [itemD1, itemD2, itemD3] 0 0 []).1 ≠ Except.ok 3 :=
  ⟨rfl, rfl, fun h => Except.noConfusion h⟩

/-- C2 (amended): with a positive page size and all reported totals bounded,
the paginator terminates: its output is the same for every sufficient fuel
(the generator is finite); and the number of yielded items equals the number
of items across the consumed pages whose lowercased name ends in .qdpx. -/
theorem C2_pagination_amended (server : Nat → Page) (pp T : Nat) (hpp : 1 ≤ pp)
    (hT : ∀ s, (server s).total_count ≤ T) :
    (∀ f, T ≤ f * pp → search_qdpx_files server pp (f + 1) 0
        = search_qdpx_files server pp (T + 1) 0)
    ∧ (∀ fuel start, (search_qdpx_files server pp fuel start).length
        = (((search_qdpx_pages server pp fuel start).flatMap Page.items).filter
            isQdpx).length) := by
  constructor
  · intro f hf
    have h1 := search_files_fuel_mono server pp T hT f 0 T (by simpa using hf)
    have h2 := search_files_fuel_mono server pp T hT T 0 f
      (by simpa using Nat.le_mul_of_pos_right T (lt_of_lt_of_le Nat.zero_lt_one hpp))
    rw [show f + 1 + T = T + 1 + f from by omega] at h1
    exact h1.trans h2.symm
  · intro fuel start
    rw [search_files_eq_filter]

/-- C2 witness: the amended claim evaluated at a concrete endpoint whose pages
are all empty with total 0 and page size 1. -/
theorem C2_pagination_witness :
    ((1 : Nat) ≤ 1) ∧ (∀ s : Nat, (constEmptyServer s).total_count ≤ 0)
    ∧ ((∀ f, 0 ≤ f * 1 → search_qdpx_files constEmptyServer 1 (f + 1) 0
          = search_qdpx_files constEmptyServer 1 (0 + 1) 0)
       ∧ (∀ fuel start, (search_qdpx_files constEmptyServer 1 fuel start).length
           = (((search_qdpx_pages constEmptyServer 1 fuel start).flatMap Page.items).filter
               isQdpx).length)) :=
  ⟨le_refl 1, fun _ => le_refl 0,
   C2_pagination_amended constEmptyServer 1 0 (le_refl 1) (fun _ => le_refl 0)⟩

/-- C2 counterexample: one page with a qdpx item and a non-qdpx item under
total_count 1 and page size 1. The cumulative yielded count reaches the
reported total, the sequence is finite, yet the number of yielded items is
not the number of items contained in the consumed pages: the client-side
filter drops the non-qdpx item. -/
theorem C2_pagination_counterexample :
    (search_qdpx_files exServer 1 10 0).length = (exServer 0).total_count
    ∧ ¬ ((search_qdpx_files exServer 1 10 0).length
          = ((search_qdpx_pages exServer 1 10 0).flatMap Page.items).length) :=
  ⟨rfl, by decide⟩

/-- C3 (amended): no file is created at the destination when the download GET
itself raises, when the response is 403, or when the status is in the range
400 to 599 for which raise_for_status raises; but full success is not
required for a write: a network error in the middle of the body stream leaves
a partial file behind, and a nonstandard status of 600 or above passes
raise_for_status so the body is streamed to the destination as on success. -/
theorem C3_no_partial_amended (item : SearchItem) (dir : String) (fs : FS)
    (status : Nat) (chunks : List Chunk) :
    ((download_qdpx_file item dir NetResult.netError fs).fs = fs)
    ∧ (status = 403 →
        (download_qdpx_file item dir (NetResult.response status chunks) fs).fs = fs)
    ∧ (400 ≤ status → status < 600 →
        (download_qdpx_file item dir (NetResult.response status chunks) fs).fs = fs)
    ∧ ((download_qdpx_file itemC3 "out" (NetResult.response 600 [Chunk.bytes [7]]) []).fs
        = [("out/c.qdpx", FileData.bin [7])]) := by
  refine ⟨?_, ?_, ?_, rfl⟩
  · by_cases hperm : item.canDownloadFile
    · cases hr : resolvedUrl item <;> simp [download_qdpx_file, hperm, hr]
    · simp [download_qdpx_file, hperm]
  · intro h403
    subst h403
    by_cases hperm : item.canDownloadFile
    · cases hr : resolvedUrl item <;> simp [download_qdpx_file, hperm, hr]
    · simp [download_qdpx_file, hperm]
  · intro h400 h600
    by_cases hperm : item.canDownloadFile
    · cases hr : resolvedUrl item with
      | none => simp [download_qdpx_file, hperm, hr]
      | some du =>
        by_cases h403 : status = 403 <;>
          simp [download_qdpx_file, hperm, hr, h403, h400, h600]
    · simp [download_qdpx_file, hperm]

/-- C3 witness: the amended claim evaluated at a concrete downloadable item
for a pre-response network error, a 403 response and a 404 response. -/
theorem C3_no_partial_witness :
    (download_qdpx_file itemC3 "out" NetResult.netError []).fs = []
    ∧ (download_qdpx_file itemC3 "out" (NetResult.response 403 [Chunk.bytes [7]]) []).fs = []
    ∧ (download_qdpx_file itemC3 "out" (NetResult.response 404 [Chunk.bytes [7]]) []).fs = [] :=
  ⟨(C3_no_partial_amended itemC3 "out" [] 403 [Chunk.bytes [7]]).1,
   (C3_no_partial_amended itemC3 "out" [] 403 [Chunk.bytes [7]]).2.1 rfl,
   (C3_no_partial_amended itemC3 "out" [] 404 [Chunk.bytes [7]]).2.2.1 (by omega) (by omega)⟩

/-- C3 counterexample: a download that fails with a network error after the
first body chunk leaves a partial file at the deterministic destination path,
contradicting the claim that the destination is written only on full
success. -/
theorem C3_partial_counterexample :
    (download_qdpx_file itemC3 "out"
        (NetResult.response 200 [Chunk.bytes [7], Chunk.errC]) []).res
      = Except.error PyErr.netError
    ∧ fsGet (download_qdpx_file itemC3 "out"
        (NetResult.response 200 [Chunk.bytes [7], Chunk.errC]) []).fs "out/c.qdpx"
      = some (FileData.bin [7]) :=
  ⟨rfl, rfl⟩

/-- C4: an item whose permission flag is false yields the no-permission skip
outcome immediately: no network call is made, no file is written, and the
filesystem is returned unchanged. -/
theorem C4_permission_short_circuit (item : SearchItem) (dir : String) (net : NetResult)
    (fs : FS) (h : item.canDownloadFile = false) :
    download_qdpx_file item dir net fs
      = { res := Except.ok DlOutcome.skippedNoPermission, fs := fs, netCalls := 0,
          urlUsed := none } := by
  simp [download_qdpx_file, h]

/-- C4 witness: the permission short-circuit evaluated at a concrete item
with permission false and an available successful response. -/
theorem C4_permission_witness :
    download_qdpx_file itemNoPerm "out" (NetResult.response 200 [Chunk.bytes [1]]) []
      = { res := Except.ok DlOutcome.skippedNoPermission, fs := [], netCalls := 0,
          urlUsed := none } :=
  C4_permission_short_circuit itemNoPerm "out" (NetResult.response 200 [Chunk.bytes [1]]) [] rfl

/-- C5: the extractor is tolerant of structural absence: a missing data,
latestVersion, metadataBlocks, citation or fields key yields the empty author
list without raising; over a well-shaped author value list it returns one
entry per compound object in source order; and an entry with missing name and
affiliation sub-fields carries null values. -/
theorem C5_tolerant_extraction :
    (∀ fields, jLookup fields "data" = none →
       extract_authors_affiliations (JValue.obj fields) = Except.ok [])
    ∧ (∀ fields d, jLookup fields "data" = some (JValue.obj d) →
        jLookup d "latestVersion" = none →
        extract_authors_affiliations (JValue.obj fields) = Except.ok [])
    ∧ (∀ fields d lv, jLookup fields "data" = some (JValue.obj d) →
        jLookup d "latestVersion" = some (JValue.obj lv) →
        jLookup lv "metadataBlocks" = none →
        extract_authors_affiliations (JValue.obj fields) = Except.ok [])
    ∧ (∀ fields d lv mb, jLookup fields "data" = some (JValue.obj d) →
        jLookup d "latestVersion" = some (JValue.obj lv) →
        jLookup lv "metadataBlocks" = some (JValue.obj mb) →
        jLookup mb "citation" = none →
        extract_authors_affiliations (JValue.obj fields) = Except.ok [])
    ∧ (∀ fields d lv mb cb, jLookup fields "data" = some (JValue.obj d) →
        jLookup d "latestVersion" = some (JValue.obj lv) →
        jLookup lv "metadataBlocks" = some (JValue.obj mb) →
        jLookup mb "citation" = some (JValue.obj cb) →
        jLookup cb "fields" = none →
        extract_authors_affiliations (JValue.obj fields) = Except.ok [])
    ∧ (∀ objs, (∀ o ∈ objs, WfAuthorObj o) →
        extract_authors_affiliations (mkAuthorDoc objs) = Except.ok (objs.map authorFromJ))
    ∧ (∀ gs, jLookup gs "authorName" = none → jLookup gs "authorAffiliation" = none →
        authorFromJ (JValue.obj gs)
          = { name := JValue.null, affiliation := JValue.null }) := by
  refine ⟨?_, ?_, ?_, ?_, ?_, ?_, ?_⟩
  · intro fields h
    simp [extract_authors_affiliations, pyGetD, h, jLookup]
    rfl
  · intro fields d h1 h2
    simp [extract_authors_affiliations, pyGetD, h1, h2, jLookup]
    rfl
  · intro fields d lv h1 h2 h3
    simp [extract_authors_affiliations, pyGetD, h1, h2, h3, jLookup]
    rfl
  · intro fields d lv mb h1 h2 h3 h4
    simp [extract_authors_affiliations, pyGetD, h1, h2, h3, h4, jLookup]
    rfl
  · intro fields d lv mb cb h1 h2 h3 h4 h5
    simp [extract_authors_affiliations, pyGetD, h1, h2, h3, h4, h5, jLookup]
    rfl
  · intro objs h
    have h1 : extract_authors_affiliations (mkAuthorDoc objs)
        = (objs.foldlM procAuthorObj [] >>= fun s => List.foldlM procField s []) := rfl
    rw [h1, foldlM_procAuthorObj_wf objs h []]
    rfl
  · intro gs h1 h2
    simp [authorFromJ, subValue, h1, h2]

/-- C5 witness: tolerant extraction evaluated at the empty document and at a
concrete two-entry author list with missing sub-fields. -/
theorem C5_tolerant_witness :
    extract_authors_affiliations (JValue.obj []) = Except.ok []
    ∧ extract_authors_affiliations (mkAuthorDoc authorObjsEx)
        = Except.ok (authorObjsEx.map authorFromJ)
    ∧ authorFromJ (JValue.obj []) = { name := JValue.null, affiliation := JValue.null } :=
  ⟨C5_tolerant_extraction.1 [] rfl,
   C5_tolerant_extraction.2.2.2.2.2.1 authorObjsEx (by
     intro o ho
     simp only [authorObjsEx, List.mem_cons, List.mem_singleton] at ho
     rcases ho with rfl | rfl | hin
     · exact ⟨_, rfl, Or.inr ⟨_, rfl⟩, Or.inr ⟨_, rfl⟩⟩
     · exact ⟨[], rfl, Or.inl rfl, Or.inl rfl⟩
     · cases hin),
   C5_tolerant_extraction.2.2.2.2.2.2 [] rfl rfl⟩

/-- C6 (amended): the destination name is the file identifier and name joined
by an underscore when the identifier is truthy (present and nonempty), and
the bare file name otherwise; in particular an item whose identifier is the
empty string gets the bare name. The destination path is a pure function of
the item and directory, and every download writes at most that one path. -/
theorem C6_naming_amended (item : SearchItem) (dir : String) :
    (strTruthy item.file_id = true →
       safeName item = (item.file_id.getD "") ++ "_" ++ fileNameOf item)
    ∧ (strTruthy item.file_id = false → safeName item = fileNameOf item)
    ∧ destPath item dir = pathJoin dir (safeName item)
    ∧ (∀ net fs, (download_qdpx_file item dir net fs).fs = fs
        ∨ ∃ d, (download_qdpx_file item dir net fs).fs = fsSet fs (destPath item dir) d) :=
  ⟨fun h => by simp [safeName, h], fun h => by simp [safeName, h], rfl,
   fun net fs => download_fs_eq_or_dest item dir net fs⟩

/-- C6 witness: naming evaluated at an item with identifier 42 and an item
with no identifier. -/
theorem C6_naming_witness :
    safeName itemId42 = "42_a.qdpx" ∧ safeName itemC3 = "c.qdpx"
    ∧ destPath itemId42 "out" = pathJoin "out" (safeName itemId42) :=
  ⟨((C6_naming_amended itemId42 "out").1 rfl).trans rfl,
   ((C6_naming_amended itemC3 "out").2.1 rfl).trans rfl,
   (C6_naming_amended itemId42 "out").2.2.1⟩

/-- C6 counterexample: an item that has a file identifier, namely the empty
string, yet receives the bare file name rather than the claimed
identifier-underscore-name form, because Python truthiness treats the empty
identifier as absent. -/
theorem C6_naming_counterexample :
    itemEmptyId.file_id = some "" ∧ safeName itemEmptyId = "a.qdpx"
    ∧ ¬ safeName itemEmptyId
        = (itemEmptyId.file_id.getD "") ++ "_" ++ fileNameOf itemEmptyId :=
  ⟨rfl, rfl, by decide⟩

/-- C7 (amended): with permission, the download URL is the direct URL when
that URL is truthy (present and nonempty); otherwise it is synthesized from a
truthy file identifier; when both are absent or empty the call returns the
no-locator skip outcome with no network call; and whichever URL is resolved
is the URL the network request uses. -/
theorem C7_url_resolution_amended (item : SearchItem) :
    (strTruthy item.url = true → resolvedUrl item = item.url)
    ∧ (strTruthy item.url = false → strTruthy item.file_id = true →
        resolvedUrl item
          = some (BASE_URL ++ "/api/access/datafile/" ++ item.file_id.getD ""))
    ∧ (∀ dir net fs, item.canDownloadFile = true → strTruthy item.url = false →
        strTruthy item.file_id = false →
        download_qdpx_file item dir net fs
          = { res := Except.ok DlOutcome.skippedNoLocator, fs := fs, netCalls := 0,
              urlUsed := none })
    ∧ (∀ dir net fs du, item.canDownloadFile = true → resolvedUrl item = some du →
        (download_qdpx_file item dir net fs).urlUsed = some du) := by
  refine ⟨fun h => by simp [resolvedUrl, h],
    fun h1 h2 => by simp [resolvedUrl, h1, h2],
    fun dir net fs hp h1 h2 => by simp [download_qdpx_file, resolvedUrl, hp, h1, h2],
    fun dir net fs du hp hr => ?_⟩
  cases net with
  | netError => simp [download_qdpx_file, hp, hr]
  | response status chunks =>
    by_cases h403 : status = 403
    · simp [download_qdpx_file, hp, hr, h403]
    · by_cases h400 : 400 ≤ status ∧ status < 600
      · simp [download_qdpx_file, hp, hr, h403, h400]
      · rcases hst : streamChunks chunks [] with ⟨eo, c⟩
        cases eo <;> simp [download_qdpx_file, hp, hr, h403, h400, hst]

/-- C7 witness: URL resolution evaluated at concrete items for all three
cases, and the resolved URL is the one the request uses. -/
theorem C7_url_resolution_witness :
    resolvedUrl itemC3 = itemC3.url
    ∧ resolvedUrl itemUrlEmpty
        = some (BASE_URL ++ "/api/access/datafile/" ++ itemUrlEmpty.file_id.getD "")
    ∧ download_qdpx_file itemNoLocator "out" NetResult.netError []
        = { res := Except.ok DlOutcome.skippedNoLocator, fs := [], netCalls := 0,
            urlUsed := none }
    ∧ (download_qdpx_file itemC3 "out" NetResult.netError []).urlUsed = some "u" :=
  ⟨(C7_url_resolution_amended itemC3).1 rfl,
   (C7_url_resolution_amended itemUrlEmpty).2.1 rfl rfl,
   (C7_url_resolution_amended itemNoLocator).2.2.1 "out" NetResult.netError [] rfl rfl rfl,
   (C7_url_resolution_amended itemC3).2.2.2 "out" NetResult.netError [] "u" rfl rfl⟩

/-- C7 counterexample: an item whose direct URL is present, namely the empty
string, with file identifier 7: the request uses the synthesized datafile
URL, not the present direct URL, because Python truthiness treats the empty
URL as absent. -/
theorem C7_url_resolution_counterexample :
    itemUrlEmpty.url = some ""
    ∧ (download_qdpx_file itemUrlEmpty "out" (NetResult.response 200 []) []).urlUsed
        = some "https://dataverse.harvard.edu/api/access/datafile/7"
    ∧ (download_qdpx_file itemUrlEmpty "out" (NetResult.response 200 []) []).urlUsed
        ≠ itemUrlEmpty.url :=
  ⟨rfl, rfl, by decide⟩

/-- C8 (amended): the run returns a single processed count and no further
tally: whenever the run completes without an exception, the returned count
equals the number of items the paginator yielded. -/
theorem C8_summary_amended (server : Nat → Page) (ws : Nat → ItemWorld) (fuel : Nat)
    (fs fs2 : FS) (n : Nat) (h : main server ws fuel fs = (Except.ok n, fs2)) :
    n = (search_qdpx_files server 50 fuel 0).length := by
  have hlen := mainLoop_ok_length ws (search_qdpx_files server 50 fuel 0) 0 0 fs n fs2 h
  simpa using hlen

/-- C8 witness: the amended claim evaluated at a concrete two-item run. -/
theorem C8_summary_witness :
    (2 : Nat) = (search_qdpx_files serverS 50 10 0).length :=
  C8_summary_amended serverS wsA 10 [] [("harvard_qdpx_files/d1.qdpx", FileData.bin [1, 2])]
    2 rfl

/-- C8 counterexample: two runs, one with both items downloadable and one
with the first item lacking permission, produce identical run results (same
count, same filesystem), yet their saved counts in the sense of the claim
differ (2 versus 1). Hence no function of the run result yields the saved
count: the run does not return a summary containing a saved count. -/
theorem C8_summary_counterexample :
    main serverS wsA 10 [] = main serverS0 wsA 10 []
    ∧ specSavedCount (search_qdpx_files serverS 50 10 0) wsA = 2
    ∧ specSavedCount (search_qdpx_files serverS0 50 10 0) wsA = 1
    ∧ ¬ ∃ f : Except PyErr Nat × FS → Nat,
        f (main serverS wsA 10 []) = specSavedCount (search_qdpx_files serverS 50 10 0) wsA
        ∧ f (main serverS0 wsA 10 [])
            = specSavedCount (search_qdpx_files serverS0 50 10 0) wsA := by
  refine ⟨rfl, rfl, rfl, ?_⟩
  rintro ⟨f, h1, h2⟩
  rw [show main serverS wsA 10 [] = main serverS0 wsA 10 [] from rfl] at h1
  rw [show specSavedCount (search_qdpx_files serverS 50 10 0) wsA = 2 from rfl] at h1
  rw [show specSavedCount (search_qdpx_files serverS0 50 10 0) wsA = 1 from rfl] at h2
  exact absurd (h1.symm.trans h2) (by decide)

/-- C9: the per-dataset side-record round-trips: reading the written file
back at its dataset-keyed path reproduces exactly the ordered author list
that was saved; and saving again fully overwrites, so a re-run with the same
inputs leaves the same filesystem. -/
theorem C9_side_record_roundtrip (dataset_id : Option Nat) (pid dsname : Option String)
    (authors : List Author) (out_dir : String) (fs : FS) :
    readAuthorsRecord (save_authors_metadata dataset_id pid dsname authors out_dir fs)
        (pathJoin out_dir (pyReprOptNat dataset_id ++ "_authors.json"))
      = some authors
    ∧ save_authors_metadata dataset_id pid dsname authors out_dir
        (save_authors_metadata dataset_id pid dsname authors out_dir fs)
      = save_authors_metadata dataset_id pid dsname authors out_dir fs := by
  constructor
  · unfold readAuthorsRecord save_authors_metadata
    rw [fsGet_fsSet_self]
    show (authors.map authorToJson).mapM jsonToAuthor = some authors
    exact mapM_jsonToAuthor_toJson authors
  · unfold save_authors_metadata
    exact fsSet_fsSet_self fs _ _ _

/-- C10: implicit client-side filter: the paginator yields exactly those
items of the consumed pages whose lowercased name ends with .qdpx, in order,
silently dropping every other item, and the yielded count can be strictly
smaller than the number of items the pages contained. -/
theorem C10_client_side_filter :
    (∀ (server : Nat → Page) (pp fuel start : Nat),
       search_qdpx_files server pp fuel start
         = ((search_qdpx_pages server pp fuel start).flatMap Page.items).filter isQdpx)
    ∧ (search_qdpx_files exServer 1 10 0).length
        < ((search_qdpx_pages exServer 1 10 0).flatMap Page.items).length := by
  refine ⟨fun server pp fuel start => search_files_eq_filter server pp fuel start, ?_⟩
  decide

end Scraper
